import Mathlib

/-!
Verification of the qci-data repository against its natural-language
specification.

The development shallowly embeds the parts of the repository that the
claims are about:

* `.github/workflows/update-description.js` — the PR-description patching
  script run by the deploy workflow.  JavaScript strings are modelled as
  Lean `String`s (lists of characters); the character-index arithmetic of
  `indexOf` / `slice` is observationally equivalent to JavaScript's
  UTF-16 code-unit arithmetic because every index produced by the script
  is consumed by `slice` / `indexOf` on the same string.
* `.github/workflows/deploy.yml` and the README — the Netlify alias and
  preview-site name used when deploying PR previews.
* the Jupyter notebooks — the Python functions and cells the claims name
  (`sample_hamiltonian`, `error_status`, the job-submission cells), a
  small name-resolution semantics for running notebook cells in order,
  and an abstract model of the external `qci_client` SDK.
-/

/-! ## Character-level string primitives

Models of the JavaScript string operations used by
`update-description.js`, written over `List Char` so that every theorem
below can be settled by kernel evaluation. -/

/-- JS `String.split(sep)` for a single-character separator: splits on
every occurrence; `""` splits to `[""]`. -/
def splitOnChar (c : Char) : List Char → List (List Char)
  | [] => [[]]
  | x :: xs =>
    match splitOnChar c xs with
    | [] => [[]]
    | h :: t => if x = c then [] :: h :: t else (x :: h) :: t

/-- `strSplit s c` is JS `s.split(c)` for the one-character string `c`. -/
def strSplit (s : String) (c : Char) : List String :=
  (splitOnChar c s.data).map String.mk

/-- JS `Array.prototype.join(sep)`. -/
def joinWith (sep : String) : List String → String
  | [] => ""
  | [x] => x
  | x :: y :: rest => x ++ sep ++ joinWith sep (y :: rest)

/-- Index of the first occurrence of `pat` in `s` (`none` if `pat` does
not occur).  For the empty pattern this is `some 0`, as for JS
`indexOf('')`. -/
def firstIdx? : List Char → List Char → Option Nat
  | [], pat => if pat.isEmpty then some 0 else none
  | x :: xs, pat =>
    if pat.isPrefixOf (x :: xs) then some 0 else (firstIdx? xs pat).map (· + 1)

/-- JS `s.indexOf(pat)`: character index of the first occurrence, or `-1`. -/
def jsIndexOf (s pat : String) : Int :=
  match firstIdx? s.data pat.data with
  | none => -1
  | some n => n

/-- JS `s.indexOf(pat, start)`: first occurrence at index `≥ start`, or `-1`. -/
def jsIndexOfFrom (s pat : String) (start : Nat) : Int :=
  match firstIdx? (s.data.drop start) pat.data with
  | none => -1
  | some n => ((start + n : Nat) : Int)

/-- JS `s.replace(pat, rep)` for a string `pat`: replaces the first
occurrence only (the operation on line 23 of the script). -/
def replaceFirst (s pat rep : String) : String :=
  match firstIdx? s.data pat.data with
  | none => s
  | some i => String.mk (s.data.take i ++ rep.data ++ s.data.drop (i + pat.data.length))

/-- JS `s.slice(a)` for `a ≥ 0`. -/
def jsSliceFrom (s : String) (a : Nat) : String :=
  String.mk (s.data.drop a)

/-- JS `s.slice(a, b)` for `0 ≤ a ≤ b`. -/
def jsSlice (s : String) (a b : Nat) : String :=
  String.mk ((s.data.take b).drop a)

/-- JS `s.trim()` (restricted to the ASCII/whitespace characters Lean's
`Char.isWhitespace` recognises). -/
def jsTrim (s : String) : String :=
  String.mk (((s.data.dropWhile Char.isWhitespace).reverse.dropWhile Char.isWhitespace).reverse)

/-- JS `s.startsWith(p)`. -/
def strStartsWith (s p : String) : Bool :=
  p.data.isPrefixOf s.data

/-- Number of (possibly overlapping) occurrences of `pat` in `s`:
the number of positions at which `pat` matches. -/
def countOcc (s pat : String) : Nat :=
  ((List.range (s.data.length + 1)).filter (fun j => pat.data.isPrefixOf (s.data.drop j))).length

theorem data_append (a b : String) : (a ++ b).data = a.data ++ b.data := rfl

/-! ## `.github/workflows/update-description.js`

Embedding of the description-update script.  The script's two constants,
its `appendPreviewLinks` function and its top-level `try`/`catch` body are
translated line by line.  Thrown JavaScript errors are modelled with
`Except`; `core.setFailed(error.message)` becomes the `failed` outcome. -/

def PREVIEW_HEADER : String := "\n## 🎥 Previews"

def LOADING_MSG : String := "\n🔥 Creating Preview... please wait (approximately 5min)"

/-- A thrown JavaScript error (the two kinds the script can raise). -/
inductive JsError where
  | referenceError (msg : String)
  | typeError (msg : String)
deriving DecidableEq, Repr

/-- JS `error.message`. -/
def JsError.message : JsError → String
  | .referenceError m => m
  | .typeError m => m

/-- Line 41 of the script:
`https://data-preview-${ pr_number }--qci-preview.netlify.app`. -/
def baseURL (pr_number : Nat) : String :=
  "https://data-preview-" ++ toString pr_number ++ "--qci-preview.netlify.app"

/-- Models `new URL(input, base).pathname` where `base` is the script's
absolute `https://…netlify.app` URL (host only, empty path): the query
and fragment are dropped and the input is resolved against the base's
root path, so the result always starts with `/`.  The WHATWG parser
accepts essentially every input against such a base, so the model is
total; this value is only ever consumed on control paths of
`appendPreviewLinks` that end in a thrown `TypeError` (see below), so
only its totality and the leading slash are load-bearing. -/
def urlPathname (input : String) (_base : String) : Option String :=
  let core := String.mk (input.data.takeWhile (fun c => c != '?' && c != '#'))
  if strStartsWith core "/" then some core else some ("/" ++ core)

/-- Lines 48–58 of the script: the function mapped over the lines of the
existing previews section.  A trimmed line starting with `-` is replaced
by the pathname of the URL it names (the `try` around `new URL` falls
through to returning the trimmed line on failure); other lines are
returned trimmed. -/
def lineMapJs (base line : String) : String :=
  let line2 := jsTrim line
  if strStartsWith line2 "-" then
    match urlPathname (jsTrim (jsSliceFrom line2 1)) base with
    | some p => p
    | none => line2
  else
    line2

/-- Lines 38–73 of the script, `appendPreviewLinks(currentDescription, pr_number)`,
with the environment variable `PREVIEW_URLS` passed explicitly
(`none` models an unset variable, for which `process.env.PREVIEW_URLS?.split(',') ?? []`
yields `[]`).

Both branches throw:

* header absent (`c === -1`): the template literal on line 44 evaluates
  `previewURLs.length`, but no binding named `previewURLs` exists — the
  declared constant is `defaultPreviewURLs` — so a `ReferenceError` is
  thrown before any string is produced;
* header present: `previewUrls` is the *string* produced by
  `.split('\n').map(…).join('\n')` on line 48–58, and the branch then
  calls the array methods `.include` (line 61, itself a misspelling of
  `.includes`), `.push` (lines 62/65) and `.map` (line 69) on it, each a
  `TypeError`.  The first to be reached depends on whether
  `defaultPreviewURLs` is empty and whether `previewUrls` is empty,
  mirroring the evaluation order of the source. -/
def appendPreviewLinks (currentDescription : String) (pr_number : Nat)
    (preview_urls_env : Option String) : Except JsError String :=
  let c := jsIndexOf currentDescription PREVIEW_HEADER
  let defaultPreviewURLs : List String :=
    match preview_urls_env with
    | some s => strSplit s ','
    | none => []
  let base := baseURL pr_number
  if c == -1 then
    Except.error (JsError.referenceError "previewURLs is not defined")
  else
    let start := c.toNat + PREVIEW_HEADER.data.length
    let end_ := jsIndexOfFrom currentDescription "\n##" start
    let seg :=
      if end_ == -1 then jsSliceFrom currentDescription start
      else jsSlice currentDescription start end_.toNat
    let previewUrls := joinWith "\n" ((strSplit seg '\n').map (lineMapJs base))
    if defaultPreviewURLs ≠ [] then
      Except.error (JsError.typeError "previewUrls.include is not a function")
    else if previewUrls.data.length == 0 then
      Except.error (JsError.typeError "previewUrls.push is not a function")
    else
      Except.error (JsError.typeError "previewUrls.map is not a function")

/-- Line 25 of the script: the new description, depending on `DESC_STATE`. -/
def computeNewDescription (currentDescription : String) (descState : String)
    (previewURLsEnv : Option String) (pr_number : Nat) : Except JsError String :=
  if descState = "loading" then Except.ok (currentDescription ++ LOADING_MSG)
  else appendPreviewLinks currentDescription pr_number previewURLsEnv

/-- Observable outcome of one run of the script: a `pulls.update` call
with the given body, no update call, or `core.setFailed(msg)`. -/
inductive ScriptOutcome where
  | updated (body : String)
  | noUpdate
  | failed (msg : String)
deriving DecidableEq, Repr

/-- Lines 26–33: issue `pulls.update` exactly when the new description
differs from the current one (the source tests `newDescription!==currentDescription`). -/
def finishScript (currentDescription : String) (res : Except JsError String) : ScriptOutcome :=
  match res with
  | .error e => .failed e.message
  | .ok newDescription =>
    if newDescription = currentDescription then ScriptOutcome.noUpdate
    else ScriptOutcome.updated newDescription

/-- Lines 8–36: the top-level `try`/`catch`.  `fetched` is the result of
the `octokit.pulls.get` call (line 16), abstracted as either the PR body
or a thrown error; line 23 strips the first occurrence of `LOADING_MSG`
from the body. -/
def runScript (fetched : Except JsError String) (descState : String)
    (previewURLsEnv : Option String) (pr_number : Nat) : ScriptOutcome :=
  match fetched with
  | .error e => .failed e.message
  | .ok body =>
    let currentDescription := replaceFirst body LOADING_MSG ""
    finishScript currentDescription
      (computeNewDescription currentDescription descState previewURLsEnv pr_number)

/-- The loading-state transformation of the script (lines 23 and 25 with
`DESC_STATE === 'loading'`): remove the first occurrence of the loading
message, then append it. -/
def addLoading (d : String) : String :=
  replaceFirst d LOADING_MSG "" ++ LOADING_MSG

theorem append_loading_ne (s : String) : s ++ LOADING_MSG ≠ s := by
  intro h
  have hlen := congrArg (fun t => t.data.length) h
  simp only [data_append, List.length_append] at hlen
  have hL : LOADING_MSG.data.length ≠ 0 := by decide
  omega

/-- **C1.** The spec reads `appendPreviewLinks` as total text-templating,
but the function throws on *every* input: with the previews header absent
it dereferences the undefined identifier `previewURLs` (a `ReferenceError`);
with the header present it calls the array methods `.include` / `.push` /
`.map` on the string `previewUrls` (a `TypeError`).  The first two
conjuncts evaluate the two branches at concrete inputs; the third shows
no input returns normally. -/
theorem appendPreviewLinks_always_throws :
    appendPreviewLinks "" 5 none =
      Except.error (JsError.referenceError "previewURLs is not defined") ∧
    appendPreviewLinks ("intro" ++ PREVIEW_HEADER ++ "\n- /foo") 5 (some "a,b") =
      Except.error (JsError.typeError "previewUrls.include is not a function") ∧
    ∀ (d : String) (pr : Nat) (env : Option String),
      ∃ e, appendPreviewLinks d pr env = Except.error e := by
  refine ⟨rfl, rfl, ?_⟩
  intro d pr env
  simp only [appendPreviewLinks]
  repeat' split
  all_goals exact ⟨_, rfl⟩

/-- **C3.** When `DESC_STATE = 'loading'`, the script updates the PR body
to exactly: the fetched description with the first occurrence of the
loading message removed, with the loading message appended at the end
(the update is always issued because appending the non-empty message
always changes the string). -/
theorem runScript_loading_updates :
    ∀ (body : String) (env : Option String) (pr : Nat),
      runScript (Except.ok body) "loading" env pr =
        ScriptOutcome.updated (replaceFirst body LOADING_MSG "" ++ LOADING_MSG) := by
  intro body env pr
  have h : computeNewDescription (replaceFirst body LOADING_MSG "") "loading" env pr =
      Except.ok (replaceFirst body LOADING_MSG "" ++ LOADING_MSG) := by
    simp [computeNewDescription]
  simp only [runScript, h, finishScript]
  rw [if_neg (append_loading_ne _)]

/-- **C4.** On a run where the new description is computed, the
`pulls.update` request is issued iff the computed description differs
from the loading-message-stripped current description; when they are
equal no update request is made. -/
theorem pulls_update_iff_changed :
    ∀ (body descState : String) (env : Option String) (pr : Nat) (nd : String),
      computeNewDescription (replaceFirst body LOADING_MSG "") descState env pr =
          Except.ok nd →
        ((runScript (Except.ok body) descState env pr = ScriptOutcome.updated nd ↔
            nd ≠ replaceFirst body LOADING_MSG "") ∧
         (runScript (Except.ok body) descState env pr = ScriptOutcome.noUpdate ↔
            nd = replaceFirst body LOADING_MSG "")) := by
  intro body ds env pr nd h
  simp only [runScript, h, finishScript]
  by_cases hc : nd = replaceFirst body LOADING_MSG ""
  · simp [hc]
  · simp [hc]

/-- Witness for `pulls_update_iff_changed` at a concrete input (empty
body, loading state): the update is issued with the appended message. -/
theorem pulls_update_iff_changed_witness :
    runScript (Except.ok "") "loading" none 1 =
      ScriptOutcome.updated ("" ++ LOADING_MSG) :=
  (pulls_update_iff_changed "" "loading" none 1 ("" ++ LOADING_MSG)
      rfl).1.mpr (by decide)

/-- **C5.** Errors are caught: if fetching the PR throws, or computing the
new description throws, the run ends in `core.setFailed(error.message)`
and no `pulls.update` call is made (the outcome is `failed`, not
`updated`). -/
theorem script_error_sets_failed :
    (∀ (e : JsError) (ds : String) (env : Option String) (pr : Nat),
        runScript (Except.error e) ds env pr = ScriptOutcome.failed e.message) ∧
    (∀ (body ds : String) (env : Option String) (pr : Nat) (e : JsError),
        computeNewDescription (replaceFirst body LOADING_MSG "") ds env pr =
            Except.error e →
          runScript (Except.ok body) ds env pr = ScriptOutcome.failed e.message) := by
  constructor
  · intro e ds env pr
    rfl
  · intro body ds env pr e h
    simp only [runScript, h, finishScript]

/-- Witness for `script_error_sets_failed`: with a non-loading state and
an empty description the script fails with the `ReferenceError` message
and issues no update. -/
theorem script_error_sets_failed_witness :
    runScript (Except.ok "") "x" none 1 =
      ScriptOutcome.failed "previewURLs is not defined" :=
  script_error_sets_failed.2 "" "x" none 1
    (JsError.referenceError "previewURLs is not defined") rfl

/-! ## `deploy.yml`, the README, and the script's preview base URL

`deploy.yml` deploys the PR preview with
`--alias=data-preview-${{ github.event.number }}` (line 78); the README
documents the preview website as `https://qci-preview.netlify.app/`;
Netlify serves an alias deploy of a site at
`https://<alias>--<sitename>.netlify.app`. -/

/-- The Netlify alias that `deploy.yml` passes to the Netlify CLI for a
pull request: `data-preview-${{ github.event.number }}`. -/
def deployPreviewAlias (pr_number : Nat) : String :=
  "data-preview-" ++ toString pr_number

/-- The name of the Netlify site that hosts previews, as documented in
the README: the preview website is `https://qci-preview.netlify.app/`. -/
def previewSiteName : String := "qci-preview"

/-- Netlify's deploy-alias URL convention (behaviour of the external
Netlify service, not repository code): an alias deploy of site `site`
under alias `a` is served at `https://<a>--<site>.netlify.app`. -/
def netlifyAliasDeployURL (a site : String) : String :=
  "https://" ++ a ++ "--" ++ site ++ ".netlify.app"

theorem strExt {a b : String} (h : a.data = b.data) : a = b := by
  cases a
  cases b
  exact congrArg String.mk h

/-- **C6.** For every pull request number, the base URL built by the
description-update script (line 41) is exactly the Netlify alias-deploy
URL for the alias `deploy.yml` passes to the Netlify CLI on the
`qci-preview` site, so the preview links target the deployed preview. -/
theorem baseURL_matches_deploy_alias :
    ∀ n : Nat, baseURL n = netlifyAliasDeployURL (deployPreviewAlias n) previewSiteName := by
  intro n
  apply strExt
  simp [baseURL, netlifyAliasDeployURL, deployPreviewAlias, previewSiteName, data_append,
    List.append_assoc]

/-! ## The full text of `update-description.js`

The script embedded verbatim, line by line (73 physical lines; the file
does not end with a newline), and its line counts. -/

/-- The 73 lines of `.github/workflows/update-description.js`. -/
def updateDescriptionJsLines : List String :=
  [
   "import * as core from \x27@actions/core\x27;",
   "import * as github from \x27@actions/github\x27;",
   "import \x7b Octokit \x7d from \x27@octokit/rest\x27;",
   "",
   "const PREVIEW_HEADER= \x27\\n## 🎥 Previews\x27",
   "const LOADING_MSG= \x27\\n🔥 Creating Preview... please wait (approximately 5min)\x27",
   "",
   "try \x7b",
   "\tconst token = process.env.GITHUB_TOKEN;",
   "\tconst octokit = new Octokit(\x7b auth: token \x7d);",
   "",
   "\tconst \x7b owner, repo \x7d = github.context.repo;",
   "\tconst pr_number = github.context.payload.pull_request?.number ?? github.context.runNumber;",
   "",
   "\t// Get the current pull request description",
   "\tconst \x7b data: currentPR \x7d = await octokit.pulls.get(\x7b",
   "\towner,",
   "\trepo,",
   "\tpull_number: pr_number,",
   "\t\x7d);",
   "",
   "\t/** @type string */",
   "\tconst currentDescription = currentPR.body.replace(LOADING_MSG, \x27\x27);",
   "\t// Update Preview section",
   "\tconst newDescription= process.env.DESC_STATE===\x27loading\x27 ? currentDescription+LOADING_MSG :  appendPreviewLinks(currentDescription, pr_number);",
   "\t// Replace description",
   "\tif(newDescription!==currentDescription)",
   "\t\tawait octokit.pulls.update(\x7b",
   "\t\t\towner,",
   "\t\t\trepo,",
   "\t\t\tpull_number: pr_number,",
   "\t\t\tbody: newDescription,",
   "\t\t\x7d);",
   "\x7d catch (error) \x7b",
   "  core.setFailed(error.message);",
   "\x7d",
   "",
   "function appendPreviewLinks(currentDescription, pr_number)\x7b",
   "\tconst c= currentDescription.indexOf(PREVIEW_HEADER);",
   "\tconst defaultPreviewURLs= process.env.PREVIEW_URLS?.split(\x27,\x27) ?? [];",
   "\tconst baseURL= \x60https://data-preview-$\x7b pr_number \x7d--qci-preview.netlify.app\x60;",
   "\t// Edit URLs",
   "\tif(c===-1)\x7b",
   "\t\treturn \x60$\x7bcurrentDescription\x7d$\x7bPREVIEW_HEADER\x7d\\n$\x7b(previewURLs.length>0? previewURLs : [\x27/\x27]).map(path=> \x60- $\x7bnew URL(path, baseURL).href\x7d\x60).join(\x27\\n\x27)\x7d\x60",
   "\t\x7d else \x7b",
   "\t\tconst start= c + PREVIEW_HEADER.length",
   "\t\tconst end= currentDescription.indexOf(\x27\\n##\x27, start);",
   "\t\tconst previewUrls= (end===-1 ? currentDescription.slice(start) : currentDescription.slice(start, end)).split(\x27\\n\x27).map(line=> \x7b",
   "\t\t\tconst line2=line.trim();",
   "\t\t\tif(line2.startsWith(\x27-\x27))\x7b",
   "\t\t\t\ttry \x7b",
   "\t\t\t\t\treturn new URL(line2.slice(1).trim(), baseURL).pathname",
   "\t\t\t\t\x7d catch (error) \x7b",
   "\t\t\t\t\tconsole.error(\x27PR ERROR>>\x27, error);",
   "\t\t\t\t\x7d",
   "\t\t\t\x7d",
   "\t\t\treturn line2;",
   "\t\t\x7d).join(\x27\\n\x27);",
   "\t\t// Add missing paths",
   "\t\tdefaultPreviewURLs.forEach(path=> \x7b",
   "\t\t\tif(!previewUrls.include(path))",
   "\t\t\t\tpreviewUrls.push(path)",
   "\t\t\x7d);",
   "\t\tif(previewUrls.length===0)",
   "\t\t\tpreviewUrls.push(\x27/\x27)",
   "\t\treturn \x60$\x7b",
   "\t\t\tcurrentDescription.slice(0, start)",
   "\t\t\x7d$\x7b",
   "\t\t\tpreviewUrls.map(path => \x60- $\x7bnew URL(path, baseURL).href\x7d\x60).join(\x27\\n\x27)",
   "\t\t\x7d$\x7bend===-1?\x27\x27:currentDescription.slice(end+1)\x7d\x60;",
   "\t\t",
   "\t\x7d",
   "\x7d"
  ]

/-- The source text of `.github/workflows/update-description.js`: its
lines joined by newlines. -/
def updateDescriptionJs : String :=
  joinWith "\n" updateDescriptionJsLines

/-- Number of physical lines of a text (split on newline). -/
def countLines (s : String) : Nat :=
  (strSplit s '\n').length

/-- A line that carries code: non-blank after trimming and not a
`//` or `/*` comment line. -/
def isCodeLine (l : String) : Bool :=
  let t := jsTrim l
  t != "" && !(strStartsWith t "//") && !(strStartsWith t "/*")

/-- Number of non-blank, non-comment lines. -/
def codeLineCount (s : String) : Nat :=
  ((strSplit s '\n').filter isCodeLine).length

theorem splitOnChar_ne_nil (c : Char) (xs : List Char) : splitOnChar c xs ≠ [] := by
  cases xs with
  | nil => simp [splitOnChar]
  | cons x t =>
    cases hsp : splitOnChar c t with
    | nil => simp [splitOnChar, hsp]
    | cons a r =>
      simp only [splitOnChar, hsp]
      split <;> simp

theorem splitOnChar_no_sep (c : Char) (xs : List Char) (h : xs.all (fun x => x != c)) :
    splitOnChar c xs = [xs] := by
  induction xs with
  | nil => rfl
  | cons x t ih =>
    simp only [List.all_cons, Bool.and_eq_true, bne_iff_ne] at h
    simp only [splitOnChar, ih (by simpa using h.2)]
    rw [if_neg h.1]

theorem splitOnChar_append (c : Char) (xs ys : List Char) (h : xs.all (fun x => x != c)) :
    splitOnChar c (xs ++ c :: ys) = xs :: splitOnChar c ys := by
  induction xs with
  | nil =>
    cases hsp : splitOnChar c ys with
    | nil => exact absurd hsp (splitOnChar_ne_nil c ys)
    | cons a t => simp [splitOnChar, hsp]
  | cons x t ih =>
    simp only [List.all_cons, Bool.and_eq_true, bne_iff_ne] at h
    simp only [List.cons_append, List.append_eq, splitOnChar, ih (by simpa using h.2)]
    rw [if_neg h.1]

/-- A line with no embedded newline. -/
def lineOk (s : String) : Bool :=
  s.data.all (fun c => c != '\n')

theorem strSplit_joinWith :
    ∀ (l : String) (ls : List String), (l :: ls).all lineOk = true →
      strSplit (joinWith "\n" (l :: ls)) '\n' = l :: ls := by
  intro l ls
  induction ls generalizing l with
  | nil =>
    intro h
    simp only [List.all_cons, Bool.and_eq_true, lineOk] at h
    simp only [joinWith, strSplit]
    rw [splitOnChar_no_sep _ _ h.1]
    simp
  | cons y rest ih =>
    intro h
    simp only [List.all_cons, Bool.and_eq_true, lineOk] at h
    have hdata : (l ++ "\n" ++ joinWith "\n" (y :: rest)).data =
        l.data ++ '\n' :: (joinWith "\n" (y :: rest)).data := by
      simp [data_append]
    simp only [joinWith, strSplit]
    rw [hdata, splitOnChar_append _ _ _ h.1]
    have htail := ih y (by simp [lineOk, List.all_cons, h.2.1, h.2.2])
    simp only [strSplit] at htail
    simp only [List.map_cons, htail]

set_option maxRecDepth 8000 in
theorem updateDescriptionJsLines_ok : updateDescriptionJsLines.all lineOk = true := by
  decide

set_option maxRecDepth 8000 in
/-- **C7.** The description-patching script is 73 physical lines long, of
which exactly 60 are non-blank, non-comment code lines — i.e. it is a
script of approximately 60 lines. -/
theorem updateDescriptionJs_line_counts :
    countLines updateDescriptionJs = 73 ∧ codeLineCount updateDescriptionJs = 60 := by
  have hsplit : strSplit updateDescriptionJs '\n' = updateDescriptionJsLines := by
    rw [updateDescriptionJs]
    exact strSplit_joinWith _ _ updateDescriptionJsLines_ok
  constructor
  · rw [countLines, hsplit]
    decide
  · rw [codeLineCount, hsplit]
    decide

/-! ## Idempotence of the loading-state transformation (C9)

`addLoading d = replaceFirst d LOADING_MSG "" ++ LOADING_MSG` is the
body → new-description mapping of the script's loading path.  It is *not*
idempotent on every description with at most one occurrence of the
loading message: removing the single occurrence can splice the
surrounding text into a fresh occurrence that is not a suffix, and the
second application then removes that earlier occurrence instead of the
appended one.  It *is* idempotent whenever the stripped description
contains no occurrence of the loading message; the proof rests on the
fact that `LOADING_MSG` contains its first character `'\n'` nowhere
else, so no occurrence can straddle the boundary between the stripped
description and the appended message. -/

theorem firstIdx?_none_forall (p : List Char) :
    ∀ xs : List Char, firstIdx? xs p = none → ∀ j, ¬ p.isPrefixOf (xs.drop j) := by
  intro xs
  induction xs with
  | nil =>
    intro h j hpre
    rw [List.drop_nil] at hpre
    cases p with
    | nil => simp [firstIdx?, List.isEmpty] at h
    | cons a q => simp [List.isPrefixOf] at hpre
  | cons x xs ih =>
    intro h j
    simp only [firstIdx?] at h
    by_cases hp : p.isPrefixOf (x :: xs)
    · rw [if_pos hp] at h
      exact absurd h (by simp)
    · rw [if_neg hp, Option.map_eq_none'] at h
      cases j with
      | zero => simpa using hp
      | succ j =>
        simp only [List.drop_succ_cons]
        exact ih h j

theorem no_match_in_suffix (p w : List Char)
    (huniq : ∀ k, 0 < k → k < p.length → p[k]? ≠ p[0]?)
    (hs : ∀ j, ¬ p.isPrefixOf (w.drop j)) :
    ∀ j, j < w.length → ¬ p.isPrefixOf ((w ++ p).drop j) := by
  intro j hj hpre
  rw [List.isPrefixOf_iff_prefix] at hpre
  by_cases hcase : j + p.length ≤ w.length
  · refine hs j ?_
    rw [List.isPrefixOf_iff_prefix]
    rw [List.drop_append_of_le_length (Nat.le_of_lt hj)] at hpre
    rw [List.prefix_iff_eq_take] at hpre ⊢
    rwa [List.take_append_of_le_length (by simp [List.length_drop]; omega)] at hpre
  · obtain ⟨t, ht⟩ := hpre
    have hk1 : 0 < w.length - j := by omega
    have hk2 : w.length - j < p.length := by omega
    have e1 : ((w ++ p).drop j)[w.length - j]? = (w ++ p)[j + (w.length - j)]? := by
      rw [List.getElem?_drop]
    have e2 : (w ++ p)[j + (w.length - j)]? = p[0]? := by
      have hjk : j + (w.length - j) = w.length := by omega
      rw [hjk, List.getElem?_append_right (le_refl w.length)]
      simp
    have e3 : ((w ++ p).drop j)[w.length - j]? = p[w.length - j]? := by
      rw [← ht, List.getElem?_append_left hk2]
    exact huniq (w.length - j) hk1 hk2 (by rw [← e3, e1, e2])

theorem firstIdx?_append_self (p : List Char) (hne : p ≠ [])
    (huniq : ∀ k, 0 < k → k < p.length → p[k]? ≠ p[0]?) :
    ∀ w : List Char, (∀ j, ¬ p.isPrefixOf (w.drop j)) →
      firstIdx? (w ++ p) p = some w.length := by
  intro w
  induction w with
  | nil =>
    intro _
    cases p with
    | nil => exact absurd rfl hne
    | cons a q =>
      simp only [List.nil_append, firstIdx?]
      rw [if_pos (List.isPrefixOf_iff_prefix.mpr (List.prefix_refl _))]
      simp
  | cons x w' ih =>
    intro hs
    have hnm := no_match_in_suffix p (x :: w') huniq hs 0 (by simp)
    simp only [List.drop_zero, List.cons_append] at hnm
    simp only [List.cons_append, List.append_eq, firstIdx?]
    rw [if_neg hnm]
    rw [ih (fun j => by
      have h' := hs (j + 1)
      simpa [List.drop_succ_cons] using h')]
    simp

/-- The stripped-then-append composite leaves the stripped string fixed
when the loading message does not occur in it. -/
theorem replaceFirst_append_loading (s : String)
    (h : firstIdx? s.data LOADING_MSG.data = none) :
    replaceFirst (s ++ LOADING_MSG) LOADING_MSG "" = s := by
  have hne : LOADING_MSG.data ≠ [] := by decide
  have hb : ∀ k, k < LOADING_MSG.data.length →
      (0 < k → LOADING_MSG.data[k]? ≠ LOADING_MSG.data[0]?) := by decide
  have huniq : ∀ k, 0 < k → k < LOADING_MSG.data.length →
      LOADING_MSG.data[k]? ≠ LOADING_MSG.data[0]? := fun k h1 h2 => hb k h2 h1
  have hidx : firstIdx? (s.data ++ LOADING_MSG.data) LOADING_MSG.data = some s.data.length :=
    firstIdx?_append_self _ hne huniq _ (firstIdx?_none_forall _ _ h)
  have hdata : (s ++ LOADING_MSG).data = s.data ++ LOADING_MSG.data := data_append s LOADING_MSG
  simp only [replaceFirst, hdata, hidx]
  rw [List.take_left]
  have hdrop : (s.data ++ LOADING_MSG.data).drop (s.data.length + LOADING_MSG.data.length) = [] := by
    have h' := List.drop_length (s.data ++ LOADING_MSG.data)
    rw [List.length_append] at h'
    exact h'
  rw [hdrop]
  simp only [List.append_nil]

/-- **C9 (amended).** The loading-state transformation `f(d) = (d with
the first occurrence of the loading message removed) ++ loading message`
is idempotent on every description `d` for which removing the first
occurrence leaves a string that contains no occurrence of the loading
message (in particular every description in which the message does not
occur, or occurs once in a way whose removal does not splice together a
new occurrence): re-running the Add Loading step does not change the
description again. -/
theorem addLoading_idempotent_of_no_residual (d : String)
    (h : firstIdx? (replaceFirst d LOADING_MSG "").data LOADING_MSG.data = none) :
    addLoading (addLoading d) = addLoading d := by
  show replaceFirst (addLoading d) LOADING_MSG "" ++ LOADING_MSG = addLoading d
  rw [addLoading, replaceFirst_append_loading _ h]

/-- Witness for `addLoading_idempotent_of_no_residual` on a description
with no occurrence of the loading message. -/
theorem addLoading_idempotent_witness :
    addLoading (addLoading "hello") = addLoading "hello" :=
  addLoading_idempotent_of_no_residual "hello" (by decide)

/-- The tail of `LOADING_MSG` after its leading newline. -/
def LOADING_TAIL : String := "🔥 Creating Preview... please wait (approximately 5min)"

/-- A description containing exactly one occurrence of the loading
message, whose removal splices the surrounding `"X\n"` and
`LOADING_TAIL` into a fresh, non-suffix occurrence. -/
def spliceDescription : String := "X\n" ++ LOADING_MSG ++ LOADING_TAIL ++ "Y"

set_option maxRecDepth 8000 in
/-- **C9 (counterexample).** `spliceDescription` contains at most one
occurrence of the loading message, yet the loading-state transformation
is not idempotent on it. -/
theorem addLoading_not_idempotent :
    countOcc spliceDescription LOADING_MSG ≤ 1 ∧
      addLoading (addLoading spliceDescription) ≠ addLoading spliceDescription := by
  constructor
  · decide
  · decide

/-! ## Running the gentle-introduction notebook's cells in order (C8)

A name-resolution semantics for the code cells of the
gentle-introduction notebook (`src/unnamed/part_000`).  Only the
module-scope binding structure matters for the claim: a `def` statement
binds its own name but none of its nested functions' names; evaluating a
name that is not bound raises `NameError` (returned as `Except.error`
with the offending name).  Attribute access and the calls themselves are
assumed to succeed, as they do in the notebook up to the point of the
name-resolution failure; call arguments in these cells are plain names
or literals, and Python evaluates the callee before the arguments. -/

/-- An atomic argument expression: a literal or a name. -/
inductive PyAtom where
  | lit
  | name (s : String)

/-- The expression forms occurring in the notebook's cells. -/
inductive PyExpr where
  | lit
  | name (s : String)
  | attr (obj : PyExpr) (field : String)
  | call (callee : PyExpr) (args : List PyAtom)
  | tuple (elems : List PyAtom)

/-- First unresolvable name of an atom, if any. -/
def evalAtom (env : List String) : PyAtom → Option String
  | .lit => none
  | .name s => if env.contains s then none else some s

/-- First unresolvable name in a list of atoms (left to right). -/
def evalAtoms (env : List String) : List PyAtom → Option String
  | [] => none
  | a :: rest => (evalAtom env a).orElse (fun _ => evalAtoms env rest)

/-- First unresolvable name of an expression (Python evaluation order:
callee before arguments). -/
def evalExpr (env : List String) : PyExpr → Option String
  | .lit => none
  | .name s => if env.contains s then none else some s
  | .attr obj _ => evalExpr env obj
  | .call callee args => (evalExpr env callee).orElse (fun _ => evalAtoms env args)
  | .tuple elems => evalAtoms env elems

/-- The statement forms occurring in the notebook's cells.  A `defFun`
records the names of the functions nested inside its body; executing the
`def` binds only the outer name. -/
inductive PyStmt where
  | importBind (names : List String)
  | assign (lhs : String) (rhs : PyExpr)
  | defFun (name : String) (nested : List String)
  | exprStmt (e : PyExpr)

/-- Execute one statement: extend the environment or raise `NameError`. -/
def runStmt (env : List String) : PyStmt → Except String (List String)
  | .importBind ns => .ok (ns ++ env)
  | .assign x e =>
    match evalExpr env e with
    | some n => .error n
    | none => .ok (x :: env)
  | .defFun n _ => .ok (n :: env)
  | .exprStmt e =>
    match evalExpr env e with
    | some n => .error n
    | none => .ok env

/-- Execute statements in order, stopping at the first `NameError`. -/
def runStmts : List String → List PyStmt → Except String (List String)
  | env, [] => .ok env
  | env, s :: rest =>
    match runStmt env s with
    | .error n => .error n
    | .ok env' => runStmts env' rest

/-- Run a notebook: execute the statements of its code cells in order,
starting from an empty module scope. -/
def runCells (cells : List (List PyStmt)) : Except String (List String) :=
  runStmts [] cells.flatten

/-- Whether a statement contains a call whose callee is the plain name `n`. -/
def stmtCallsName (n : String) : PyStmt → Bool
  | .assign _ (.call (.name f) _) => f == n
  | .exprStmt (.call (.name f) _) => f == n
  | _ => false

/-- Cell 1: `import numpy as np`, `import networkx as nx`,
`import matplotlib.pyplot as plt`, `import os`,
`from qci_client import QciClient`. -/
def gentleIntroCell1 : List PyStmt :=
  [.importBind ["np", "nx", "plt", "os", "QciClient"]]

/-- Cell 2: `token = "your_token"`, `api_url = "https://api.qci-prod.com"`,
`qclient = QciClient(api_token=token, url=api_url)`. -/
def gentleIntroCell2 : List PyStmt :=
  [.assign "token" .lit,
   .assign "api_url" .lit,
   .assign "qclient" (.call (.name "QciClient") [.name "token", .name "api_url"])]

/-- Cell 3: `C = np.array(...)`, `J = np.array(...)`, the tuple display
`C, J`, and `sum_constraint = 100`. -/
def gentleIntroCell3 : List PyStmt :=
  [.assign "C" (.call (.attr (.name "np") "array") [.lit]),
   .assign "J" (.call (.attr (.name "np") "array") [.lit]),
   .exprStmt (.tuple [.name "C", .name "J"]),
   .assign "sum_constraint" .lit]

/-- Cell 4: `def ising_solver(): …` with `sample_hamiltonian` and
`get_results` nested inside its body, and `def show_results(): …` at
module scope. -/
def gentleIntroCell4 : List PyStmt :=
  [.defFun "ising_solver" ["sample_hamiltonian", "get_results"],
   .defFun "show_results" []]

/-- Cell 5: `schedule = 1`, `solution_precision = 0.1`,
`response = sample_hamiltonian(C, J, sum_constraint, schedule, solution_precision, qclient)`,
`get_results(response)`, `show_results()`. -/
def gentleIntroCell5 : List PyStmt :=
  [.assign "schedule" .lit,
   .assign "solution_precision" .lit,
   .assign "response" (.call (.name "sample_hamiltonian")
     [.name "C", .name "J", .name "sum_constraint", .name "schedule",
      .name "solution_precision", .name "qclient"]),
   .exprStmt (.call (.name "get_results") [.name "response"]),
   .exprStmt (.call (.name "show_results") [])]

/-- The code cells of the gentle-introduction notebook, in order. -/
def gentleIntroCells : List (List PyStmt) :=
  [gentleIntroCell1, gentleIntroCell2, gentleIntroCell3, gentleIntroCell4, gentleIntroCell5]

/-- The module-scope environment after the first four cells. -/
def gentleIntroEnvAfter4 : List String :=
  ["show_results", "ising_solver", "sum_constraint", "J", "C",
   "qclient", "api_url", "token", "np", "nx", "plt", "os", "QciClient"]

/-- **C8.** Running the gentle-introduction notebook's cells in order
raises `NameError` for `sample_hamiltonian` at the cell that calls it:
no statement ever calls `ising_solver`, and after the defining cell the
module scope binds `ising_solver` and `show_results` but neither
`sample_hamiltonian` nor `get_results`, so the call
`sample_hamiltonian(C, J, …)` cannot resolve its target (and
`get_results(response)` / `show_results()` are never reached). -/
theorem gentle_intro_raises_nameError :
    runCells gentleIntroCells = Except.error "sample_hamiltonian" ∧
    (gentleIntroCells.flatten.all (fun s => !(stmtCallsName "ising_solver" s))) = true ∧
    ∀ env,
      runStmts [] (gentleIntroCell1 ++ gentleIntroCell2 ++ gentleIntroCell3 ++ gentleIntroCell4) =
          Except.ok env →
        env.contains "sample_hamiltonian" = false ∧
        env.contains "get_results" = false ∧
        env.contains "ising_solver" = true ∧
        env.contains "show_results" = true := by
  refine ⟨rfl, rfl, ?_⟩
  intro env h
  have hE : runStmts []
      (gentleIntroCell1 ++ gentleIntroCell2 ++ gentleIntroCell3 ++ gentleIntroCell4) =
      Except.ok gentleIntroEnvAfter4 := rfl
  rw [hE] at h
  injection h with h'
  subst h'
  decide

/-- Witness for `gentle_intro_raises_nameError` at the concrete
environment produced by the first four cells. -/
theorem gentle_intro_raises_nameError_witness :
    gentleIntroEnvAfter4.contains "sample_hamiltonian" = false ∧
    gentleIntroEnvAfter4.contains "get_results" = false ∧
    gentleIntroEnvAfter4.contains "ising_solver" = true ∧
    gentleIntroEnvAfter4.contains "show_results" = true :=
  gentle_intro_raises_nameError.2.2 gentleIntroEnvAfter4 rfl

/-! ## The notebooks' use of the external `qci_client` SDK (C2)

The SDK is out of scope and is modelled as an *abstract* client: a
structure whose fields (`upload_file`, `build_job_body`, `process_job`)
are arbitrary functions, with the payload, file-id, job-body and
response types taken as type parameters.  The repository functions that
obtain solutions are embedded over such a client; proving their results
equal (projections of) the client's `process_job` response *for every
client* shows the repository contributes no solving of its own.  Data
values (matrix entries, job parameters) are carried abstractly or as
rationals; `upload_file` is modelled as returning the `file_id` the code
immediately extracts from the upload response. -/

/-- The Hamiltonian file built by `sample_hamiltonian`
(`{"file_name": …, "file_config": {"hamiltonian": {"data": H}}}`,
flattened to its two pieces of information). -/
structure HamiltonianFile (α : Type) where
  file_name : String
  hamiltonian_data : List (List α)

/-- The `job_params` dictionary passed by `sample_hamiltonian`. -/
structure HamJobParams (α : Type) where
  sampler_type : String
  nsamples : Nat
  solution_type : String
  sum_constraint : α
  relaxation_schedule : Int

/-- Abstract client interface used by the gentle-introduction notebook's
`sample_hamiltonian` (part_000, lines 251–266). -/
structure QciClientModel (α FileId JobBody ρ : Type) where
  upload_file : HamiltonianFile α → FileId
  build_job_body : (job_type : String) → (hamiltonian_file_id : FileId) →
    (job_params : HamJobParams α) → (job_tags : List String) → JobBody
  process_job : (job_type : String) → (job_body : JobBody) → (wait : Bool) → ρ

/-- `np.hstack([C.reshape([n, 1]), J])` for an `n × 1` column `C`. -/
def np_hstack {α : Type} (C J : List (List α)) : List (List α) :=
  List.zipWith (· ++ ·) C J

/-- `sample_hamiltonian` from the gentle-introduction notebook: build the
Hamiltonian file, upload it, build the job body and return the client's
`process_job` response unchanged.  `int(solution_precision) == solution_precision`
holds exactly when the rational `solution_precision` is integral
(denominator 1). -/
def sample_hamiltonian {α FileId JobBody ρ : Type} (client : QciClientModel α FileId JobBody ρ)
    (C J : List (List α)) (sum_constraint : α) (schedule : Int)
    (solution_precision : ℚ) : ρ :=
  let soltype := if solution_precision.den = 1 then "integer" else "continuous"
  let H := np_hstack C J
  let ham_file : HamiltonianFile α := ⟨"qudit-tutorial-hame", H⟩
  let file_id := client.upload_file ham_file
  let job_tags := ["qudit-tutorial"]
  let job_body := client.build_job_body "sample-hamiltonian" file_id
    ⟨"dirac-3", 1, soltype, sum_constraint, schedule⟩ job_tags
  client.process_job "sample-hamiltonian" job_body true

/-- The `results` object of a job response, as read by the
set-partitioning cell (part_001): `energies`, `solutions`,
`feasibilities`. -/
structure JobResults (ε σ : Type) where
  energies : List ε
  solutions : List σ
  feasibilities : List Bool

/-- A job response whose `results` field the cell reads. -/
structure JobResponse (ε σ : Type) where
  results : JobResults ε σ

/-- The `job_params` dictionary of the part_001 cell. -/
structure ConstraintJobParams where
  device_type : String
  alpha : ℚ
  num_samples : Nat

/-- Abstract client interface used by the part_001 job-submission cell. -/
structure QciClientQlcbo (β FileId JobBody ε σ : Type) where
  upload_file : β → FileId
  build_job_body : (job_type : String) → (job_params : ConstraintJobParams) →
    (constraints_file_id : FileId) → (objective_file_id : FileId) →
    (job_name : String) → (job_tags : List String) → JobBody
  process_job : JobBody → JobResponse ε σ

/-- The cell's selection loop over `enumerate(samples)` (zipped with
`is_feasibles`, which have equal length in every response the notebook
handles): keep assigning `sol = item`, break at the first feasible
sample; the result is the first feasible sample, else the last sample,
else `None`. -/
def pickFeasible {σ : Type} : List (σ × Bool) → Option σ
  | [] => none
  | (x, f) :: rest =>
    if f then some x
    else
      match pickFeasible rest with
      | none => some x
      | some y => some y

/-- The part_001 job-submission cell (lines 577–647): upload the
objective and constraint files, build the job body, run
`process_job`, read `energies` / `solutions` / `feasibilities` from the
response and select a solution.  Returns the response together with the
values the cell goes on to use. -/
def part001_submit {β FileId JobBody ε σ : Type}
    (qci : QciClientQlcbo β FileId JobBody ε σ)
    (objective_json constraint_json : β) :
    JobResponse ε σ × (List ε × List σ × List Bool × Option σ) :=
  let objective_file_id := qci.upload_file objective_json
  let constraint_file_id := qci.upload_file constraint_json
  let job_params : ConstraintJobParams := ⟨"dirac-1", 5, 20⟩
  let body := qci.build_job_body "sample-constraint" job_params
    constraint_file_id objective_file_id "tutorial_eqc1" ["tutorial_eqc1"]
  let job_response_json := qci.process_job body
  let results := job_response_json.results
  let energies := results.energies
  let samples := results.solutions
  let is_feasibles := results.feasibilities
  let sol := pickFeasible (samples.zip is_feasibles)
  (job_response_json, (energies, samples, is_feasibles, sol))

theorem pickFeasible_mem {σ : Type} (l : List (σ × Bool)) (x : σ)
    (h : pickFeasible l = some x) : x ∈ l.map Prod.fst := by
  induction l with
  | nil => simp [pickFeasible] at h
  | cons p rest ih =>
    obtain ⟨a, f⟩ := p
    simp only [pickFeasible] at h
    by_cases hf : f = true
    · rw [if_pos hf] at h
      injection h with h
      subst h
      simp
    · rw [if_neg hf] at h
      cases hr : pickFeasible rest with
      | none =>
        rw [hr] at h
        injection h with h
        subst h
        simp
      | some y =>
        rw [hr] at h
        injection h with h
        subst h
        exact List.mem_cons_of_mem _ (ih hr)

theorem pickFeasible_mem_left {σ : Type} (samples : List σ) (feas : List Bool) (x : σ)
    (h : pickFeasible (samples.zip feas) = some x) : x ∈ samples := by
  have hm := pickFeasible_mem _ _ h
  simp only [List.mem_map] at hm
  obtain ⟨⟨a, b⟩, hz, he⟩ := hm
  cases he
  exact (List.of_mem_zip hz).1

/-- **C2.** Every optimization result obtained by the cited notebook code
comes from the external SDK, for *every* possible client behaviour:
`sample_hamiltonian` returns exactly the client's `process_job` response
for the job body built from the uploaded problem data; the part_001 cell
returns exactly `process_job`'s response, its `energies` / `solutions` /
`feasibilities` are exactly the response's fields, and any solution the
cell selects is a member of the response's solution list — repository
code never synthesises a solution of its own. -/
theorem optimization_results_from_sdk :
    (∀ (α FileId JobBody ρ : Type) (client : QciClientModel α FileId JobBody ρ)
        (C J : List (List α)) (sc : α) (schedule : Int) (prec : ℚ),
        sample_hamiltonian client C J sc schedule prec =
          client.process_job "sample-hamiltonian"
            (client.build_job_body "sample-hamiltonian"
              (client.upload_file ⟨"qudit-tutorial-hame", np_hstack C J⟩)
              ⟨"dirac-3", 1, if prec.den = 1 then "integer" else "continuous", sc, schedule⟩
              ["qudit-tutorial"]) true) ∧
    (∀ (β FileId JobBody ε σ : Type) (qci : QciClientQlcbo β FileId JobBody ε σ)
        (obj con : β),
        (part001_submit qci obj con).1 =
          qci.process_job (qci.build_job_body "sample-constraint" ⟨"dirac-1", 5, 20⟩
            (qci.upload_file con) (qci.upload_file obj) "tutorial_eqc1" ["tutorial_eqc1"]) ∧
        (part001_submit qci obj con).2.1 = (part001_submit qci obj con).1.results.energies ∧
        (part001_submit qci obj con).2.2.1 = (part001_submit qci obj con).1.results.solutions ∧
        (part001_submit qci obj con).2.2.2.1 = (part001_submit qci obj con).1.results.feasibilities ∧
        ∀ x, (part001_submit qci obj con).2.2.2.2 = some x →
          x ∈ (part001_submit qci obj con).1.results.solutions) := by
  constructor
  · intro α FileId JobBody ρ client C J sc schedule prec
    rfl
  · intro β FileId JobBody ε σ qci obj con
    refine ⟨rfl, rfl, rfl, rfl, ?_⟩
    intro x h
    exact pickFeasible_mem_left _ _ _ h

/-- A concrete client whose `process_job` returns a fixed response, for
witnessing `optimization_results_from_sdk`. -/
def qlcboWitnessClient : QciClientQlcbo Unit Unit Unit Int (List Int) where
  upload_file := fun _ => ()
  build_job_body := fun _ _ _ _ _ _ => ()
  process_job := fun _ => ⟨⟨[-5], [[1, 0]], [true]⟩⟩

/-- Witness for `optimization_results_from_sdk`: with the concrete
client, the cell selects the response's only solution, which is indeed a
member of the response's solution list. -/
theorem optimization_results_from_sdk_witness :
    (part001_submit qlcboWitnessClient () ()).2.2.2.2 = some [1, 0] ∧
    ([1, 0] : List Int) ∈ (part001_submit qlcboWitnessClient () ()).1.results.solutions :=
  ⟨rfl, optimization_results_from_sdk.2 Unit Unit Unit Int (List Int)
    qlcboWitnessClient () () |>.2.2.2.2 [1, 0] rfl⟩

/-! ## `error_status` from the QLCBO notebook (C10)

Python values are modelled with strings, integers and string-keyed
dictionaries; `d[k]` raises `KeyError` when `d` is a dictionary without
the key `k` and `TypeError` when `d` is not a dictionary (subscripting a
string or an integer with a string key).  `error_status` wraps its body
in `try … except KeyError`, so a `KeyError` from any lookup yields the
fixed fallback message while a `TypeError` propagates. -/

/-- A Python value: a string, an integer, or a string-keyed dictionary. -/
inductive PyVal where
  | str (s : String)
  | int (n : Int)
  | dict (entries : List (String × PyVal))

/-- Lookup in a dictionary's entry list (first binding wins). -/
def dictLookup : List (String × PyVal) → String → Option PyVal
  | [], _ => none
  | (k, v) :: rest, key => if k = key then some v else dictLookup rest key

/-- The exceptions `error_status` can encounter. -/
inductive PyExc where
  | keyError
  | typeError
deriving DecidableEq, Repr

/-- Python subscripting `d[key]` with a string key. -/
def subscript : PyVal → String → Except PyExc PyVal
  | .dict entries, key =>
    match dictLookup entries key with
    | some v => .ok v
    | none => .error .keyError
  | .str _, _ => .error .typeError
  | .int _, _ => .error .typeError

/-- Python `v == "ERROR"`: true exactly for the string value `"ERROR"`
(comparison of a non-string with a string is `False`, not an error). -/
def pyEqStr : PyVal → String → Bool
  | .str s, t => s == t
  | _, _ => false

/-- The three normal return values of `error_status`. -/
inductive ErrorStatusResult where
  | pair (status err : PyVal)
  | noErrors
  | fallback

/-- `error_status(job_response)` from the QLCBO notebook
(part_002, lines 367–374): under `try`, if `job_response['status'] == "ERROR"`
return the tuple `(job_response['status'], job_response['job_info']['results']['error'])`,
else return `"No errors detected"`; `except KeyError` returns the fixed
fallback message.  A `TypeError` (subscripting a non-dictionary) is not
caught and propagates. -/
def error_status (job_response : PyVal) : Except PyExc ErrorStatusResult :=
  match subscript job_response "status" with
  | .error .keyError => .ok .fallback
  | .error .typeError => .error .typeError
  | .ok st =>
    if pyEqStr st "ERROR" then
      match subscript job_response "job_info" with
      | .error .keyError => .ok .fallback
      | .error .typeError => .error .typeError
      | .ok ji =>
        match subscript ji "results" with
        | .error .keyError => .ok .fallback
        | .error .typeError => .error .typeError
        | .ok r =>
          match subscript r "error" with
          | .error .keyError => .ok .fallback
          | .error .typeError => .error .typeError
          | .ok e => .ok (.pair st e)
    else
      .ok .noErrors

/-- A job-response dictionary on which `error_status` raises: the status
is `"ERROR"` but `job_info` is a string, so
`job_response['job_info']['results']` subscripts a string and the
resulting `TypeError` escapes the `except KeyError` handler. -/
def badJobResponse : PyVal :=
  .dict [("status", .str "ERROR"), ("job_info", .str "oops")]

/-- **C10 (counterexample).** `error_status` is not total over
job-response dictionaries: on `badJobResponse` it propagates a
`TypeError` instead of returning one of its three documented values. -/
theorem error_status_not_total :
    error_status badJobResponse = Except.error PyExc.typeError := rfl

/-- **C10 (amended).** `error_status` never propagates a `KeyError`; it
returns the `(status, error)` pair exactly when the status is the string
`"ERROR"` and the `job_info → results → error` chain succeeds; it
returns `"No errors detected"` exactly when the status exists and
differs from `"ERROR"`; and it returns the fixed fallback message
whenever a looked-up key is missing (from the top-level `status` lookup
or anywhere along the nested chain).  It is not total, however: a
`TypeError` raised by subscripting a non-dictionary on the nested chain
propagates (see the counterexample). -/
theorem error_status_spec (jr : PyVal) :
    error_status jr ≠ Except.error PyExc.keyError ∧
    (∀ st e, error_status jr = Except.ok (ErrorStatusResult.pair st e) ↔
      (subscript jr "status" = Except.ok st ∧ pyEqStr st "ERROR" = true ∧
       ∃ ji r, subscript jr "job_info" = Except.ok ji ∧
         subscript ji "results" = Except.ok r ∧ subscript r "error" = Except.ok e)) ∧
    (error_status jr = Except.ok ErrorStatusResult.noErrors ↔
      ∃ st, subscript jr "status" = Except.ok st ∧ pyEqStr st "ERROR" = false) ∧
    (subscript jr "status" = Except.error PyExc.keyError →
      error_status jr = Except.ok ErrorStatusResult.fallback) ∧
    (∀ st, subscript jr "status" = Except.ok st → pyEqStr st "ERROR" = true →
      (subscript jr "job_info" = Except.error PyExc.keyError ∨
       (∃ ji, subscript jr "job_info" = Except.ok ji ∧
          subscript ji "results" = Except.error PyExc.keyError) ∨
       (∃ ji r, subscript jr "job_info" = Except.ok ji ∧
          subscript ji "results" = Except.ok r ∧
          subscript r "error" = Except.error PyExc.keyError)) →
      error_status jr = Except.ok ErrorStatusResult.fallback) := by
  rcases h1 : subscript jr "status" with exc | st
  · cases exc <;> refine ⟨?_, ?_, ?_, ?_, ?_⟩ <;> simp [error_status, h1]
  · by_cases hE : pyEqStr st "ERROR" = true
    · rcases h2 : subscript jr "job_info" with exc2 | ji
      · cases exc2 <;> refine ⟨?_, ?_, ?_, ?_, ?_⟩ <;>
          simp [error_status, h1, h2, hE]
      · rcases h3 : subscript ji "results" with exc3 | r
        · cases exc3 <;> refine ⟨?_, ?_, ?_, ?_, ?_⟩ <;>
            simp [error_status, h1, h2, h3, hE]
        · rcases h4 : subscript r "error" with exc4 | e
          · cases exc4 <;> refine ⟨?_, ?_, ?_, ?_, ?_⟩ <;>
              simp [error_status, h1, h2, h3, h4, hE]
          · refine ⟨?_, ?_, ?_, ?_, ?_⟩ <;>
              simp [error_status, h1, h2, h3, h4, hE]
    · have hE' : pyEqStr st "ERROR" = false := by simpa using hE
      refine ⟨?_, ?_, ?_, ?_, ?_⟩ <;> simp [error_status, h1, hE']
      intro st1 e hst hcontra
      subst hst
      simp [hE'] at hcontra

/-- Witness for `error_status_spec` on a well-formed error response: the
`(status, error)` pair is returned exactly as characterised. -/
theorem error_status_spec_witness :
    error_status (PyVal.dict [("status", PyVal.str "ERROR"),
        ("job_info", PyVal.dict [("results", PyVal.dict [("error", PyVal.str "boom")])])]) =
      Except.ok (ErrorStatusResult.pair (PyVal.str "ERROR") (PyVal.str "boom")) :=
  (error_status_spec _).2.1 (PyVal.str "ERROR") (PyVal.str "boom") |>.mpr
    ⟨rfl, rfl, PyVal.dict [("results", PyVal.dict [("error", PyVal.str "boom")])],
      PyVal.dict [("error", PyVal.str "boom")], rfl, rfl, rfl⟩
